import Mathlib

/-!
Verification of the session/transport layer of the aizoomdoc client
(`config.py`, `http_client.py`, `client.py`), shallowly embedded in Lean.

Machine integers do not occur; timestamps are modelled as natural numbers
(an abstract monotone clock), HTTP statuses as naturals, and the JSON
values handled by `json.load`/`json.dump` as an inductive `Json` type.
Library boundaries (the `datetime` iso format, `uuid.UUID`, the `json`
module) are modelled by executable Lean functions with the round-trip
behaviour the libraries guarantee.
-/

set_option autoImplicit false

/-! ### Model of the datetime library boundary

`config.py` stores `expires_at` with `datetime.isoformat()` and reads it
back with `datetime.fromisoformat()`, an exact inverse pair on datetime
values that fails with `ValueError` on malformed text.  A datetime value
is modelled as a `Nat`; its textual form is the decimal numeral, an
injective textual encoding whose parser rejects any other string. -/

def digitOfChar (c : Char) : Option Nat :=
  if '0' ≤ c ∧ c ≤ '9' then some (c.toNat - 48) else none

def charOfDigit (d : Nat) : Char :=
  Char.ofNat (48 + d)

def natDecimal (n : Nat) : List Char :=
  if n < 10 then [charOfDigit n]
  else natDecimal (n / 10) ++ [charOfDigit (n % 10)]
termination_by n
decreasing_by exact Nat.div_lt_self (by omega) (by omega)

def isoformat (dt : Nat) : String := String.mk (natDecimal dt)

def parseDecimal (l : List Char) : Option Nat :=
  l.foldl (fun acc c => acc.bind fun a => (digitOfChar c).map fun d => a * 10 + d) (some 0)

def fromisoformat (s : String) : Option Nat :=
  if s.data.isEmpty then none else parseDecimal s.data

theorem digitOfChar_charOfDigit (d : Nat) (h : d < 10) :
    digitOfChar (charOfDigit d) = some d := by
  interval_cases d <;> decide

theorem parseDecimal_append (l : List Char) (c : Char) :
    parseDecimal (l ++ [c]) =
      (parseDecimal l).bind fun a => (digitOfChar c).map fun d => a * 10 + d := by
  simp [parseDecimal, List.foldl_append]

theorem parseDecimal_natDecimal (n : Nat) : parseDecimal (natDecimal n) = some n := by
  induction n using Nat.strong_induction_on with
  | _ n ih =>
    rw [natDecimal]
    split
    · next h =>
      simp [parseDecimal, digitOfChar_charOfDigit n h]
    · next h =>
      rw [parseDecimal_append, ih (n / 10) (Nat.div_lt_self (by omega) (by omega))]
      simp [digitOfChar_charOfDigit (n % 10) (Nat.mod_lt _ (by omega))]
      omega

theorem natDecimal_ne_nil (n : Nat) : natDecimal n ≠ [] := by
  rw [natDecimal]
  split <;> simp

theorem fromisoformat_isoformat (dt : Nat) : fromisoformat (isoformat dt) = some dt := by
  have hne : (isoformat dt).data = natDecimal dt := rfl
  have hempty : (natDecimal dt).isEmpty = false := by
    simp [List.isEmpty_iff, natDecimal_ne_nil dt]
  rw [fromisoformat, hne, hempty]
  simp [parseDecimal_natDecimal dt]

/-! ### Model of the uuid library boundary

`config.py` stores `active_chat_id` with `str(uuid)` and reads it back
with `UUID(s)`, which raises `ValueError` on an invalid uuid string and
`AttributeError` when handed a non-string.  A UUID value is modelled as
a string in the canonical 8-4-4-4-12 hex format. -/

def isHexChar (c : Char) : Bool :=
  ('0' ≤ c && c ≤ '9') || ('a' ≤ c && c ≤ 'f') || ('A' ≤ c && c ≤ 'F')

def isValidUUIDStr (s : String) : Bool :=
  s.data.length = 36 &&
    (s.data.enum.all fun p =>
      if p.1 = 8 || p.1 = 13 || p.1 = 18 || p.1 = 23 then p.2 = '-'
      else isHexChar p.2)

def UUIDv : Type := { s : String // isValidUUIDStr s = true }

instance : DecidableEq UUIDv := fun a b =>
  decidable_of_iff (a.val = b.val) Subtype.ext_iff.symm

/-- Model of `str(uuid)`. -/
def uuidStr (u : UUIDv) : String := u.val

/-- Model of the `UUID(hex_string)` constructor on string input. -/
def parseUUID (s : String) : Option UUIDv :=
  if h : isValidUUIDStr s = true then some ⟨s, h⟩ else none

theorem parseUUID_uuidStr (u : UUIDv) : parseUUID (uuidStr u) = some u := by
  simp [parseUUID, uuidStr, u.property]

theorem uuidStr_ne_empty (u : UUIDv) : uuidStr u ≠ "" := by
  intro h
  have hv := u.property
  rw [isValidUUIDStr] at hv
  simp only [uuidStr] at h
  rw [h] at hv
  simp at hv

/-! ### Data model (`models.py`, lines 249-265)

`TokenData` and `ClientConfig` mirror the pydantic models used by the
session store.  `expires_at` is a datetime (modelled as `Nat`) and
`active_chat_id` is a `UUID` (modelled as `UUIDv`). -/

structure TokenData where
  access_token : String
  expires_at : Nat
  user_id : String
  username : String
deriving DecidableEq, Repr

structure ClientConfig where
  server_url : String
  token_data : Option TokenData
  active_chat_id : Option UUIDv
  data_dir : Option String
deriving DecidableEq

/-- `config.py` line 25. -/
def DEFAULT_SERVER_URL : String := "https://osa.fvds.ru"

/-- The fresh default record created by `ConfigManager.load`
(`config.py` lines 76-81 and 104-109). -/
def defaultConfig : ClientConfig :=
  { server_url := DEFAULT_SERVER_URL
    token_data := none
    active_chat_id := none
    data_dir := none }

/-! ### JSON values

Model of the values produced by `json.load` and consumed by `json.dump`
(`config.py` lines 85-86 and 144-145).  The `json` module's guarantee
that `json.load` after `json.dump` returns an equal value is used at
this level; text-level JSON syntax is below the model. -/

inductive Json where
  | null
  | bool (b : Bool)
  | num (n : Int)
  | str (s : String)
  | arr (elems : List Json)
  | obj (fields : List (String × Json))

/-- Python truthiness of a JSON-decoded value, as used by
`if data.get(...)` in `config.py` lines 89 and 96. -/
def truthy : Json → Bool
  | .null => false
  | .bool b => b
  | .num n => n != 0
  | .str s => s != ""
  | .arr l => !l.isEmpty
  | .obj l => !l.isEmpty

/-- `dict[k]` lookup on a JSON object (last duplicate wins, as for
Python dicts built by `json.load`); `none` when the key is absent. -/
def jfind (fields : List (String × Json)) (k : String) : Option Json :=
  (fields.reverse.find? fun p => p.1 == k).map Prod.snd

/-- `dict.get(k)` on a JSON object: `None` (null) when the key is absent. -/
def jget (fields : List (String × Json)) (k : String) : Json :=
  (jfind fields k).getD .null

/-- The Python exceptions that can escape the parsing done by
`ConfigManager.load`; `config.py` line 102 catches exactly
`json.JSONDecodeError`, `KeyError` and `ValueError` (pydantic's
`ValidationError` is a `ValueError` subclass). -/
inductive PyErr where
  | osError
  | jsonDecodeError
  | keyError
  | valueError
  | typeError
  | attributeError
deriving DecidableEq, Repr

def caughtByLoad : PyErr → Bool
  | .jsonDecodeError => true
  | .keyError => true
  | .valueError => true
  | _ => false

/-- The parsing pipeline of `ConfigManager.load` applied to a decoded
JSON value (`config.py` lines 89-99):

* `data.get("token_data")` on a non-object raises `AttributeError`;
* a truthy `token_data` is subscripted (`TypeError` if not an object,
  `KeyError` if `expires_at` is absent), its `expires_at` string is run
  through `datetime.fromisoformat` (`ValueError` on a bad string,
  `TypeError` on a non-string) and the result validated as `TokenData`
  (pydantic `ValidationError`, a `ValueError`, on missing or non-string
  fields);
* a truthy `active_chat_id` goes through `UUID(...)` (`ValueError` on a
  bad string, `AttributeError` on a non-string);
* finally `ClientConfig(**data)` validates `server_url` as a required
  string, a falsy non-null raw `token_data`/`active_chat_id` and a
  non-string non-null `data_dir` as pydantic errors (`ValueError`). -/
def parseConfig (j : Json) : Except PyErr ClientConfig := do
  match j with
  | .obj fields =>
    let tdRaw := jget fields "token_data"
    let tokenData? ←
      if truthy tdRaw then
        match tdRaw with
        | .obj tf =>
          match jfind tf "expires_at" with
          | none => throw .keyError
          | some (.str s) =>
            match fromisoformat s with
            | none => throw .valueError
            | some dt =>
              match jfind tf "access_token", jfind tf "user_id", jfind tf "username" with
              | some (.str a), some (.str uid), some (.str un) =>
                pure (some (⟨a, dt, uid, un⟩ : TokenData))
              | _, _, _ => throw .valueError
          | some _ => throw .typeError
        | _ => throw .typeError
      else
        match tdRaw with
        | .null => pure none
        | _ => throw .valueError
    let acRaw := jget fields "active_chat_id"
    let activeChat? ←
      if truthy acRaw then
        match acRaw with
        | .str s =>
          match parseUUID s with
          | some u => pure (some u)
          | none => throw .valueError
        | _ => throw .attributeError
      else
        match acRaw with
        | .null => pure none
        | _ => throw .valueError
    let serverUrl ←
      match jget fields "server_url" with
      | .str u => pure u
      | _ => throw .valueError
    let dataDir ←
      match jget fields "data_dir" with
      | .null => pure none
      | .str d => pure (some d)
      | _ => throw .valueError
    pure { server_url := serverUrl
           token_data := tokenData?
           active_chat_id := activeChat?
           data_dir := dataDir }
  | _ => throw .attributeError

/-- The state of the session file as seen by `ConfigManager.load`. -/
inductive SessionFile where
  | missing
  | unreadable
  | invalidJson
  | content (j : Json)

/-- `ConfigManager.load` (`config.py` lines 64-110): a missing file
yields the default record; an unreadable file raises `OSError` from
`open` (not in the `except` clause); text that fails JSON decoding is
caught and degrades to the default record; otherwise the parsing
pipeline runs, with only `KeyError`/`ValueError` (and the already
handled decode error) caught. -/
def load : SessionFile → Except PyErr ClientConfig
  | .missing => .ok defaultConfig
  | .unreadable => .error .osError
  | .invalidJson => .ok defaultConfig
  | .content j =>
    match parseConfig j with
    | .ok c => .ok c
    | .error e => if caughtByLoad e then .ok defaultConfig else .error e

/-- The serialization performed by `ConfigManager.save`
(`config.py` lines 129-142): the dict handed to `json.dump`. -/
def serialize (cfg : ClientConfig) : Json :=
  .obj
    [ ("server_url", .str cfg.server_url)
    , ("token_data",
        match cfg.token_data with
        | none => Json.null
        | some t =>
          .obj
            [ ("access_token", .str t.access_token)
            , ("expires_at", .str (isoformat t.expires_at))
            , ("user_id", .str t.user_id)
            , ("username", .str t.username) ])
    , ("active_chat_id",
        match cfg.active_chat_id with
        | some u => .str (uuidStr u)
        | none => Json.null)
    , ("data_dir",
        match cfg.data_dir with
        | some d => .str d
        | none => Json.null) ]

/-- `ConfigManager.is_token_valid` (`config.py` lines 205-217): the
comparison is `expires_at > datetime.utcnow()`, with no grace buffer
subtracted, and `False` when no token record is cached. -/
def is_token_valid (now : Nat) (cfg : ClientConfig) : Bool :=
  match cfg.token_data with
  | none => false
  | some t => decide (now < t.expires_at)

/-- `ConfigManager.clear_all` (`config.py` lines 240-248): rebuild the
record keeping `server_url` and `data_dir`, dropping the token record
and the active chat pointer. -/
def clear_all (cfg : ClientConfig) : ClientConfig :=
  { server_url := cfg.server_url
    token_data := none
    active_chat_id := none
    data_dir := cfg.data_dir }

/-- `HTTPClient.logout` (`http_client.py` lines 358-366): a best-effort
`/auth/logout` post whose errors are ignored, followed by
`clear_all`; its effect on the stored session is that of `clear_all`. -/
def logout_config (cfg : ClientConfig) : ClientConfig :=
  clear_all cfg

/-! ### HTTP layer (`http_client.py`)

The in-memory client state is the session record plus the cached
long-lived credential `self._static_token`.  The network is modelled by
an environment giving the reply to the i-th `/auth/exchange` call and
the status of the i-th send of the main request. -/

/-- The exception taxonomy of `exceptions.py`. -/
inductive ApiErr where
  | authenticationError
  | tokenExpiredError
  | notFoundError
  | validationError
  | serverError
  | apiError (status : Nat)
deriving DecidableEq, Repr

/-- `httpx.Response.is_success`: status in the 2xx range. -/
def isSuccess (status : Nat) : Bool :=
  decide (200 ≤ status ∧ status < 300)

/-- `HTTPClient._handle_response_error` (`http_client.py` lines
104-136): returns without raising on success, otherwise raises the
error class selected by the status code. -/
def handle_response_error (status : Nat) : Option ApiErr :=
  if isSuccess status then none
  else if status = 401 then some .authenticationError
  else if status = 404 then some .notFoundError
  else if status = 400 ∨ status = 422 then some .validationError
  else if 500 ≤ status then some .serverError
  else some (.apiError status)

/-- Raising behaviour of a plain response check: the final status on
success, the raised error otherwise. -/
def respond (status : Nat) : Except ApiErr Nat :=
  match handle_response_error status with
  | some e => .error e
  | none => .ok status

/-- The fields of a `TokenExchangeResponse` (`models.py` lines 23-28)
together with the HTTP status the `/auth/exchange` call came back with. -/
structure ExchangeReply where
  status : Nat
  access_token : String
  expires_in : Nat
  user_id : String
  username : String

structure NetEnv where
  exchangeReplies : Nat → ExchangeReply
  requestReplies : Nat → Nat

structure ClientState where
  config : ClientConfig
  static_token : Option String
deriving DecidableEq

/-- Python truthiness of `self._static_token` (an `Optional[str]`). -/
def tokenPresent : Option String → Bool
  | none => false
  | some s => s != ""

/-- `static_token or self._static_token` (`http_client.py` line 151). -/
def resolveToken (passed stored : Option String) : Option String :=
  if tokenPresent passed then passed else stored

/-- `HTTPClient._get_auth_headers` (`http_client.py` lines 96-102): the
Authorization header value, absent when no token record is cached. -/
def get_auth_headers (cfg : ClientConfig) : Option String :=
  cfg.token_data.map fun t => "Bearer " ++ t.access_token

structure AuthOutcome where
  error : Option ApiErr
  state : ClientState
  exchangeCalls : Nat
deriving DecidableEq

/-- `HTTPClient.authenticate` (`http_client.py` lines 138-179):
resolve the static token (raising `AuthenticationError` when absent,
line 153), remember it (line 155), perform one `/auth/exchange` call,
run `_handle_response_error` on the reply, and only then store the new
token record with `expires_at = utcnow() + expires_in` (lines 170-176). -/
def authenticate (now : Nat) (env : NetEnv) (st : ClientState)
    (passed : Option String) (callIdx : Nat) : AuthOutcome :=
  let token := resolveToken passed st.static_token
  if tokenPresent token then
    let st1 : ClientState := { st with static_token := token }
    let reply := env.exchangeReplies callIdx
    match handle_response_error reply.status with
    | some e => { error := some e, state := st1, exchangeCalls := 1 }
    | none =>
      let newToken : TokenData :=
        { access_token := reply.access_token
          expires_at := now + reply.expires_in
          user_id := reply.user_id
          username := reply.username }
      { error := none
        state := { st1 with config := { st1.config with token_data := some newToken } }
        exchangeCalls := 1 }
  else
    { error := some .authenticationError, state := st, exchangeCalls := 0 }

/-- `HTTPClient._ensure_authenticated` (`http_client.py` lines
181-200): no-op when the cached token is valid; otherwise reauthenticate
through the cached credential when one is present; otherwise raise
`TokenExpiredError`. -/
def ensure_authenticated (now : Nat) (env : NetEnv) (st : ClientState)
    (callIdx : Nat) : AuthOutcome :=
  if is_token_valid now st.config then
    { error := none, state := st, exchangeCalls := 0 }
  else if tokenPresent st.static_token then
    authenticate now env st st.static_token callIdx
  else
    { error := some .tokenExpiredError, state := st, exchangeCalls := 0 }

/-- One send of the request: method, path and the Authorization header
value attached to it.  The body arguments (`json`, `params`, `files`,
`data`) are forwarded unchanged by the source on both sends and are
summarized by `method` and `path` here. -/
structure Attempt where
  method : String
  path : String
  authHeader : Option String
deriving DecidableEq, Repr

deriving instance DecidableEq for Except

structure RequestOutcome where
  result : Except ApiErr Nat
  attempts : List Attempt
  preExchangeCalls : Nat
  retryExchangeCalls : Nat
  finalState : ClientState
deriving DecidableEq

/-- The send-and-maybe-retry part of `HTTPClient.request`
(`http_client.py` lines 234-264): send once; when the reply is 401 and
auth is required and a static token is cached, reauthenticate once and
resend the identical request with a refreshed header; finally run
`_handle_response_error` on whichever reply is current. -/
def requestCore (now : Nat) (env : NetEnv) (st1 : ClientState)
    (require_auth : Bool) (method path : String) (exCalls : Nat) : RequestOutcome :=
  if env.requestReplies 0 = 401 ∧ require_auth = true ∧ tokenPresent st1.static_token = true then
    match authenticate now env st1 st1.static_token exCalls with
    | ⟨some e, stE, calls⟩ =>
      { result := .error e,
        attempts := [⟨method, path, if require_auth then get_auth_headers st1.config else none⟩],
        preExchangeCalls := exCalls, retryExchangeCalls := calls, finalState := stE }
    | ⟨none, stOk, calls⟩ =>
      { result := respond (env.requestReplies 1),
        attempts := [⟨method, path, if require_auth then get_auth_headers st1.config else none⟩,
                     ⟨method, path, get_auth_headers stOk.config⟩],
        preExchangeCalls := exCalls, retryExchangeCalls := calls, finalState := stOk }
  else
    { result := respond (env.requestReplies 0),
      attempts := [⟨method, path, if require_auth then get_auth_headers st1.config else none⟩],
      preExchangeCalls := exCalls, retryExchangeCalls := 0, finalState := st1 }

/-- `HTTPClient.request` (`http_client.py` lines 202-264). -/
def request (now : Nat) (env : NetEnv) (st : ClientState)
    (require_auth : Bool) (method path : String) : RequestOutcome :=
  if require_auth then
    match ensure_authenticated now env st 0 with
    | ⟨some err, stE, calls⟩ =>
      { result := .error err, attempts := [],
        preExchangeCalls := calls, retryExchangeCalls := 0, finalState := stE }
    | ⟨none, st1, calls⟩ => requestCore now env st1 true method path calls
  else
    requestCore now env st false method path 0

/-! ### File upload (`client.py` lines 441-456, `http_client.py` lines 341-356) -/

inductive UploadErr where
  | clientError (msg : String)
  | apiFailure (e : ApiErr)
deriving DecidableEq

structure UploadOutcome where
  result : Except UploadErr Nat
  networkCalls : Nat
  finalState : ClientState
deriving DecidableEq

/-- `AIZoomDocClient.upload_file` (`client.py` lines 441-456): when the
local path does not exist, raise `AIZoomDocError("File not found: ...")`
before touching `HTTPClient`; otherwise `HTTPClient.upload_file` runs
`_ensure_authenticated` and posts the multipart request through
`HTTPClient.request`.  `networkCalls` counts every HTTP call made:
exchange calls plus sends of the upload request. -/
def client_upload_file (now : Nat) (env : NetEnv) (st : ClientState)
    (filePath : String) (fileExists : Bool) : UploadOutcome :=
  if fileExists then
    let e := ensure_authenticated now env st 0
    match e.error with
    | some err =>
      { result := .error (.apiFailure err), networkCalls := e.exchangeCalls
        finalState := e.state }
    | none =>
      let r := request now env e.state true "POST" "/files/upload"
      { result := r.result.mapError .apiFailure
        networkCalls := e.exchangeCalls + r.preExchangeCalls
          + r.retryExchangeCalls + r.attempts.length
        finalState := r.finalState }
  else
    { result := .error (.clientError ("File not found: " ++ filePath))
      networkCalls := 0
      finalState := st }

/-! ### SSE stream consumer (`http_client.py` lines 282-339)

A frame is one unit delivered by `event_source.iter_sse()`: its declared
event name (`sse.event`, possibly absent) and its data payload.  The
`json.loads` library boundary is modelled by the payload's three
possible shapes: empty data (no parse attempted, `{}` is used),
non-empty data that parses to a JSON value, and non-empty data whose
parse raises. -/

inductive Payload where
  | empty
  | wellFormed (data : Json)
  | malformed

structure SSEFrame where
  event : Option String
  payload : Payload

/-- `models.py` lines 132-137, without the wall-clock timestamp; the
`data` field is declared `Dict[str, Any]`, so an event always carries a
dict. -/
structure StreamEvent where
  event : String
  data : List (String × Json)

/-- `data = json_module.loads(sse.data) if sse.data else {}`
(`http_client.py` line 321); `none` is the raised-exception path of
`json.loads`. -/
def parsePayload : Payload → Option Json
  | .empty => some (.obj [])
  | .wellFormed j => some j
  | .malformed => none

/-- The rest of the `try` body after the parse (`http_client.py` lines
323-330) succeeds only when `data` is a dict: the debug print evaluates
`list(data.keys())` on truthy values (`AttributeError` on a truthy
non-dict) and `StreamEvent(...)` validates `data` against
`Dict[str, Any]` (`models.py` line 136, pydantic `ValidationError` on
any non-dict).  Either failure is caught by the same
`except`/`continue`. -/
def dictFields : Json → Option (List (String × Json))
  | .obj fields => some fields
  | _ => none

/-- The event constructed at `http_client.py` lines 326-330 once the
whole `try` body has succeeded: kind `sse.event or "message"`, data the
parsed dict. -/
def toStreamEvent (f : SSEFrame) (fields : List (String × Json)) : StreamEvent :=
  { event := f.event.getD "message", data := fields }

/-- The complete `try` body for one frame (`http_client.py` lines
319-330): parse the payload, then build the event, which requires the
parsed value to be a dict; `none` means some step raised and the frame
is skipped by the `except`/`continue`. -/
def processFrame (f : SSEFrame) : Option StreamEvent :=
  (parsePayload f.payload).bind fun j =>
    (dictFields j).map fun fields => toStreamEvent f fields

/-- The break condition of `http_client.py` line 333, tested on the raw
`sse.event` after the yield. -/
def isTerminal (f : SSEFrame) : Bool :=
  f.event == some "completed" || f.event == some "error"

/-- The read loop of `HTTPClient.stream_sse` (`http_client.py` lines
318-339) over the frames the transport would deliver, in arrival order:
a frame on which any step of the `try` body raises — unparseable data,
or data that parses to a non-object — is logged and skipped
(`continue`); otherwise one event is yielded, and after yielding a
`completed` or `error` frame the loop breaks, abandoning every later
frame. -/
def stream_sse : List SSEFrame → List StreamEvent
  | [] => []
  | f :: rest =>
    match processFrame f with
    | none => stream_sse rest
    | some ev =>
      if isTerminal f then [ev]
      else ev :: stream_sse rest

/-- A well-formed frame: one the loop yields an event for, i.e. every
step of the `try` body succeeds — its data is empty (treated as `{}`)
or parses to a JSON object.  A frame whose data fails to parse, or
parses to a non-object (array, string, number, boolean, null), is
skipped by the code. -/
def isWellFormed (f : SSEFrame) : Bool :=
  (processFrame f).isSome

/-- A frame that actually stops the loop: the break is only reachable
after a successful yield. -/
def terminalWF (f : SSEFrame) : Bool :=
  isWellFormed f && isTerminal f

/-- The frames the loop looks at: everything up to and including the
first well-formed terminal frame, or the whole input when none exists. -/
def framesConsumed : List SSEFrame → List SSEFrame
  | [] => []
  | f :: rest => if terminalWF f then [f] else f :: framesConsumed rest

/-- The event a well-formed frame yields. -/
def eventOf (f : SSEFrame) : StreamEvent :=
  (processFrame f).getD { event := "message", data := [] }

theorem stream_sse_spec (l : List SSEFrame) :
    stream_sse l = ((framesConsumed l).filter isWellFormed).map eventOf := by
  induction l with
  | nil => rfl
  | cons f rest ih =>
    rw [stream_sse, framesConsumed]
    match hp : processFrame f with
    | none =>
      have hwf : isWellFormed f = false := by simp [isWellFormed, hp]
      have ht : terminalWF f = false := by simp [terminalWF, hwf]
      simp [ht, hwf, ih]
    | some ev =>
      have hwf : isWellFormed f = true := by simp [isWellFormed, hp]
      have he : eventOf f = ev := by simp [eventOf, hp]
      by_cases hterm : isTerminal f = true
      · have ht : terminalWF f = true := by simp [terminalWF, hwf, hterm]
        simp [hterm, ht, hwf, he]
      · have ht : terminalWF f = false := by
          simp [terminalWF, hwf, Bool.eq_false_iff.mpr hterm]
        simp only [Bool.not_eq_true] at hterm
        simp [hterm, ht, hwf, he, ih]


/-! ### Helper lemmas -/

theorem handle_response_error_eq_none (s : Nat) :
    handle_response_error s = none ↔ isSuccess s = true := by
  unfold handle_response_error
  split_ifs <;> simp_all

theorem resolveToken_of_present (p s : Option String) (h : tokenPresent p = true) :
    resolveToken p s = p := by
  simp [resolveToken, h]

theorem truthy_uuidStr (u : UUIDv) : truthy (.str (uuidStr u)) = true := by
  have := uuidStr_ne_empty u
  simp [truthy]
  exact this

theorem mem_of_mem_framesConsumed {f : SSEFrame} {l : List SSEFrame}
    (h : f ∈ framesConsumed l) : f ∈ l := by
  induction l with
  | nil => simp [framesConsumed] at h
  | cons g rest ih =>
    rw [framesConsumed] at h
    by_cases hg : terminalWF g = true
    · rw [if_pos hg] at h
      simp at h
      simp [h]
    · rw [if_neg hg] at h
      rcases List.mem_cons.mp h with h1 | h2
      · simp [h1]
      · exact List.mem_cons_of_mem _ (ih h2)

theorem authenticate_success (now : Nat) (env : NetEnv) (st : ClientState)
    (passed : Option String) (callIdx : Nat)
    (htok : tokenPresent (resolveToken passed st.static_token) = true)
    (hs : isSuccess (env.exchangeReplies callIdx).status = true) :
    authenticate now env st passed callIdx =
      { error := none,
        state :=
          { config :=
              { st.config with token_data := some {
                    access_token := (env.exchangeReplies callIdx).access_token,
                    expires_at := now + (env.exchangeReplies callIdx).expires_in,
                    user_id := (env.exchangeReplies callIdx).user_id,
                    username := (env.exchangeReplies callIdx).username } },
            static_token := resolveToken passed st.static_token },
        exchangeCalls := 1 } := by
  unfold authenticate
  rw [if_pos htok]
  dsimp only
  rw [(handle_response_error_eq_none _).mpr hs]

theorem requestCore_attempts_le_two (now : Nat) (env : NetEnv) (st1 : ClientState)
    (ra : Bool) (m p : String) (exCalls : Nat) :
    (requestCore now env st1 ra m p exCalls).attempts.length ≤ 2 := by
  unfold requestCore
  split
  · split <;> simp
  · simp

theorem request_attempts_le_two (now : Nat) (env : NetEnv) (st : ClientState)
    (ra : Bool) (m p : String) :
    (request now env st ra m p).attempts.length ≤ 2 := by
  unfold request
  split
  · split
    · simp
    · apply requestCore_attempts_le_two
  · apply requestCore_attempts_le_two

theorem requestCore_401_retry (now : Nat) (env : NetEnv) (st1 : ClientState)
    (method path : String) (exCalls : Nat)
    (hcred : tokenPresent st1.static_token = true)
    (hs : isSuccess (env.exchangeReplies exCalls).status = true)
    (h401 : env.requestReplies 0 = 401) :
    requestCore now env st1 true method path exCalls =
      { result := respond (env.requestReplies 1),
        attempts :=
          [ { method := method, path := path,
              authHeader := get_auth_headers st1.config },
            { method := method, path := path,
              authHeader := some ("Bearer " ++ (env.exchangeReplies exCalls).access_token) } ],
        preExchangeCalls := exCalls,
        retryExchangeCalls := 1,
        finalState :=
          { config :=
              { st1.config with token_data := some {
                    access_token := (env.exchangeReplies exCalls).access_token,
                    expires_at := now + (env.exchangeReplies exCalls).expires_in,
                    user_id := (env.exchangeReplies exCalls).user_id,
                    username := (env.exchangeReplies exCalls).username } },
            static_token := st1.static_token } } := by
  have htok : tokenPresent (resolveToken st1.static_token st1.static_token) = true := by
    rw [resolveToken_of_present _ _ hcred]
    exact hcred
  unfold requestCore
  rw [if_pos ⟨h401, rfl, hcred⟩,
      authenticate_success now env st1 st1.static_token exCalls htok hs,
      resolveToken_of_present _ _ hcred]
  rfl

/-! ### Claims -/

/-- C6: the cached bearer token is judged valid iff the current time is
strictly before its `expires_at` timestamp, with no grace-period buffer
subtracted before the comparison, and validity is false whenever no
token record is cached. -/
theorem C6_token_validity (now : Nat) (cfg : ClientConfig) :
    (is_token_valid now cfg = true ↔
      ∃ t, cfg.token_data = some t ∧ now < t.expires_at) ∧
    ∀ url ac dd, is_token_valid now ⟨url, none, ac, dd⟩ = false := by
  constructor
  · cases h : cfg.token_data with
    | none => simp [is_token_valid, h]
    | some t => simp [is_token_valid, h]
  · intro url ac dd
    rfl

/-- C10: logging out (the `clear_all` operation) clears exactly the
token record and the active conversation pointer; the server address
and data directory of the stored session are unchanged, for every
starting session state. -/
theorem C10_logout_frame (cfg : ClientConfig) :
    logout_config cfg = clear_all cfg ∧
    (clear_all cfg).server_url = cfg.server_url ∧
    (clear_all cfg).data_dir = cfg.data_dir ∧
    (clear_all cfg).token_data = none ∧
    (clear_all cfg).active_chat_id = none :=
  ⟨rfl, rfl, rfl, rfl, rfl⟩

/-- C9: uploading a local file path that does not exist fails with the
not-found condition `AIZoomDocError "File not found: ..."` before any
network activity: zero network calls are performed. -/
theorem C9_upload_missing_file (now : Nat) (env : NetEnv) (st : ClientState)
    (filePath : String) :
    (client_upload_file now env st filePath false).result
      = .error (.clientError ("File not found: " ++ filePath)) ∧
    (client_upload_file now env st filePath false).networkCalls = 0 :=
  ⟨rfl, rfl⟩

/-- C2: on a sequence of well-formed frames — frames whose whole
`try` body succeeds, i.e. empty data or data parsing to a JSON object —
the stream consumer yields exactly one event per frame in arrival
order, up to and including the first terminal (`completed` or `error`)
frame, and yields no event for any frame after that terminal frame even
if further frames are buffered. -/
theorem C2_stream_order (l : List SSEFrame)
    (hwf : ∀ f ∈ l, isWellFormed f = true) :
    stream_sse l = (framesConsumed l).map eventOf ∧
    (stream_sse l).length = (framesConsumed l).length := by
  have hfilter : (framesConsumed l).filter isWellFormed = framesConsumed l :=
    List.filter_eq_self.mpr fun f hf => hwf f (mem_of_mem_framesConsumed hf)
  constructor
  · rw [stream_sse_spec, hfilter]
  · rw [stream_sse_spec, hfilter, List.length_map]

/-- Witness for C2: the spec's example sequence, with a sixth buffered
frame after `completed` that yields nothing. -/
theorem C2_stream_order_witness :
    (stream_sse
        [ ⟨some "phase_started", .wellFormed (.obj [("phase", .str "route")])⟩,
          ⟨some "llm_token", .wellFormed (.obj [("token", .str "Hel")])⟩,
          ⟨some "llm_token", .wellFormed (.obj [("token", .str "lo")])⟩,
          ⟨some "llm_final", .wellFormed (.obj [("content", .str "Hello")])⟩,
          ⟨some "completed", .empty⟩,
          ⟨some "llm_token", .wellFormed (.obj [("token", .str "late")])⟩ ]
      = (framesConsumed
          [ ⟨some "phase_started", .wellFormed (.obj [("phase", .str "route")])⟩,
            ⟨some "llm_token", .wellFormed (.obj [("token", .str "Hel")])⟩,
            ⟨some "llm_token", .wellFormed (.obj [("token", .str "lo")])⟩,
            ⟨some "llm_final", .wellFormed (.obj [("content", .str "Hello")])⟩,
            ⟨some "completed", .empty⟩,
            ⟨some "llm_token", .wellFormed (.obj [("token", .str "late")])⟩ ]).map eventOf) ∧
    (stream_sse
        [ ⟨some "phase_started", .wellFormed (.obj [("phase", .str "route")])⟩,
          ⟨some "llm_token", .wellFormed (.obj [("token", .str "Hel")])⟩,
          ⟨some "llm_token", .wellFormed (.obj [("token", .str "lo")])⟩,
          ⟨some "llm_final", .wellFormed (.obj [("content", .str "Hello")])⟩,
          ⟨some "completed", .empty⟩,
          ⟨some "llm_token", .wellFormed (.obj [("token", .str "late")])⟩ ]).length = 5 :=
  ⟨(C2_stream_order _ (by decide)).1, rfl⟩

/-- Counterexample to C3 as stated: in the input
`[completed (well-formed), malformed, phase_started (well-formed)]`
some frame's payload fails to parse, yet only 1 event is yielded while
2 frames are well-formed — the break on the terminal `completed` frame
(C2's own guarantee) stops consumption before the later well-formed
frame, so "total events = number of well-formed frames" fails. -/
theorem C3_counterexample :
    (∃ f ∈ ([ ⟨some "completed", .empty⟩,
              ⟨some "llm_token", .malformed⟩,
              ⟨some "phase_started", .empty⟩ ] : List SSEFrame),
        isWellFormed f = false) ∧
    (stream_sse
        [ ⟨some "completed", .empty⟩,
          ⟨some "llm_token", .malformed⟩,
          ⟨some "phase_started", .empty⟩ ]).length = 1 ∧
    (([ ⟨some "completed", .empty⟩,
        ⟨some "llm_token", .malformed⟩,
        ⟨some "phase_started", .empty⟩ ] : List SSEFrame).filter isWellFormed).length = 2 := by
  refine ⟨⟨⟨some "llm_token", .malformed⟩, ?_, rfl⟩, rfl, rfl⟩
  simp

/-- C3 (amended): for every input sequence in which some frame's
payload fails to parse, the consumer yields no event for any malformed
frame and continues with the remaining frames; the total number of
events equals the number of well-formed frames — frames whose whole
`try` body succeeds: empty data or data parsing to a JSON object, the
rest being logged and skipped — within the prefix ending at the first
well-formed terminal frame (all well-formed frames when no such
terminal frame occurs).  A malformed frame never terminates the
stream. -/
theorem C3_malformed_skipped (l : List SSEFrame)
    (_hm : ∃ f ∈ l, isWellFormed f = false) :
    stream_sse l = ((framesConsumed l).filter isWellFormed).map eventOf ∧
    (stream_sse l).length = ((framesConsumed l).filter isWellFormed).length :=
  ⟨stream_sse_spec l, by rw [stream_sse_spec, List.length_map]⟩

/-- Witness for C3 (amended): a malformed frame between two well-formed
ones is skipped and exactly 2 events come out. -/
theorem C3_malformed_skipped_witness :
    (stream_sse
        [ ⟨some "phase_started", .empty⟩,
          ⟨none, .malformed⟩,
          ⟨some "llm_final", .wellFormed (.obj [("content", .str "Hello")])⟩ ]
      = ((framesConsumed
            [ ⟨some "phase_started", .empty⟩,
              ⟨none, .malformed⟩,
              ⟨some "llm_final", .wellFormed (.obj [("content", .str "Hello")])⟩ ]).filter
          isWellFormed).map eventOf ∧
      (stream_sse
          [ ⟨some "phase_started", .empty⟩,
            ⟨none, .malformed⟩,
            ⟨some "llm_final", .wellFormed (.obj [("content", .str "Hello")])⟩ ]).length
        = ((framesConsumed
              [ ⟨some "phase_started", .empty⟩,
                ⟨none, .malformed⟩,
                ⟨some "llm_final", .wellFormed (.obj [("content", .str "Hello")])⟩ ]).filter
            isWellFormed).length) ∧
    (stream_sse
        [ ⟨some "phase_started", .empty⟩,
          ⟨none, .malformed⟩,
          ⟨some "llm_final", .wellFormed (.obj [("content", .str "Hello")])⟩ ]).length = 2 :=
  ⟨C3_malformed_skipped _ ⟨⟨none, .malformed⟩, by simp, rfl⟩, rfl⟩

/-- Serialization/deserialization law behind C7: the parsing pipeline of
`load` inverts the dict built by `save`, field by field. -/
theorem parseConfig_serialize (cfg : ClientConfig) :
    parseConfig (serialize cfg) = .ok cfg := by
  obtain ⟨url, td, ac, dd⟩ := cfg
  rcases td with _ | t <;> rcases ac with _ | u <;> rcases dd with _ | d <;>
    simp [parseConfig, serialize, jget, jfind, truthy, truthy_uuidStr,
      fromisoformat_isoformat, parseUUID_uuidStr, List.find?] <;>
    first
      | rfl
      | (rw [if_neg (uuidStr_ne_empty _)]; rfl)

/-- C7: saving a session record and loading it back returns a record
equal in all fields — server address, token record with its
`expires_at` timestamp reconstructed exactly, active conversation id,
and data directory. -/
theorem C7_session_roundtrip (cfg : ClientConfig) :
    load (.content (serialize cfg)) = .ok cfg := by
  rw [load, parseConfig_serialize cfg]

/-- Counterexample to C8 as stated: a session file whose content is the
JSON array `[]` is malformed, yet `load` raises an uncaught
`AttributeError` (`data.get` on a list) instead of returning the
default record, because `config.py` line 102 catches only
`JSONDecodeError`, `KeyError` and `ValueError`; likewise an unreadable
file raises `OSError` from `open`. -/
theorem C8_counterexample :
    load (.content (.arr [])) = .error .attributeError ∧
    load .unreadable = .error .osError :=
  ⟨rfl, rfl⟩

/-- C8 (amended): `load()` returns the fresh default session record
(default server address, no token, no active conversation) when the
session file is missing, when its text fails JSON decoding, and when
parsing its decoded JSON raises a `KeyError` or `ValueError` (missing
fields, invalid timestamp or UUID strings, wrong field types); a
well-formed file loads its record.  An unreadable file, a file whose
top-level JSON value is not an object, and a non-string `expires_at`
instead raise an uncaught error. -/
theorem C8_load_degrades :
    load .missing = .ok defaultConfig ∧
    load .invalidJson = .ok defaultConfig ∧
    (∀ j e, parseConfig j = .error e → caughtByLoad e = true →
      load (.content j) = .ok defaultConfig) ∧
    (∀ j c, parseConfig j = .ok c → load (.content j) = .ok c) := by
  refine ⟨rfl, rfl, ?_, ?_⟩
  · intro j e hpe hc
    rw [load, hpe]
    dsimp only
    rw [hc]
    rfl
  · intro j c hpc
    rw [load, hpc]

/-- Witness for C8 (amended): a truncated token record (its
`expires_at` key missing) raises `KeyError`, which is caught, and the
default record comes back. -/
theorem C8_load_degrades_witness :
    parseConfig (.obj [("token_data", .obj [("access_token", .str "x")])])
      = .error .keyError ∧
    load (.content (.obj [("token_data", .obj [("access_token", .str "x")])]))
      = .ok defaultConfig :=
  ⟨rfl, C8_load_degrades.2.2.1 _ .keyError rfl rfl⟩

/-- A network whose `/auth/exchange` endpoint replies 500. -/
def exchange500Env : NetEnv :=
  { exchangeReplies := fun _ => ⟨500, "", 0, "", ""⟩
    requestReplies := fun _ => 200 }

/-- A client holding a cached long-lived credential and no bearer token. -/
def credOnlyState : ClientState :=
  { config := defaultConfig, static_token := some "static-tok" }

/-- Counterexample to C5 as stated: a 500 reply to the credential
exchange is classified as `ServerError`, not as an authentication
failure — `_handle_response_error` dispatches on the status code for
the exchange response too. -/
theorem C5_counterexample :
    (authenticate 0 exchange500Env credOnlyState (some "static-tok") 0).error
      = some .serverError ∧
    some ApiErr.serverError ≠ some ApiErr.authenticationError ∧
    some ApiErr.serverError ≠ some ApiErr.tokenExpiredError :=
  ⟨rfl, by decide, by decide⟩

/-- C5 (amended): every non-success response to the credential exchange
raises the error selected by `_handle_response_error`'s status taxonomy
(401 → authentication failure, 404 → not-found, 400/422 → validation,
5xx → server error, otherwise a generic API error), and nothing is
persisted to the session store: the stored record is unchanged on any
exchange failure. -/
theorem C5_exchange_failure (now : Nat) (env : NetEnv) (st : ClientState)
    (passed : Option String) (callIdx : Nat)
    (htok : tokenPresent (resolveToken passed st.static_token) = true)
    (hns : isSuccess (env.exchangeReplies callIdx).status = false) :
    (authenticate now env st passed callIdx).error
      = handle_response_error (env.exchangeReplies callIdx).status ∧
    (authenticate now env st passed callIdx).error ≠ none ∧
    (authenticate now env st passed callIdx).state.config = st.config := by
  obtain ⟨e, he⟩ : ∃ e, handle_response_error (env.exchangeReplies callIdx).status = some e := by
    cases h : handle_response_error (env.exchangeReplies callIdx).status with
    | none =>
      rw [(handle_response_error_eq_none _).mp h] at hns
      cases hns
    | some e => exact ⟨e, rfl⟩
  unfold authenticate
  rw [if_pos htok]
  dsimp only
  rw [he]
  exact ⟨rfl, by simp, rfl⟩

/-- Witness for C5 (amended): the 500 reply raises `ServerError` and the
stored session record is untouched. -/
theorem C5_exchange_failure_witness :
    (authenticate 0 exchange500Env credOnlyState (some "static-tok") 0).error
      = handle_response_error 500 ∧
    (authenticate 0 exchange500Env credOnlyState (some "static-tok") 0).error ≠ none ∧
    (authenticate 0 exchange500Env credOnlyState (some "static-tok") 0).state.config
      = credOnlyState.config :=
  C5_exchange_failure 0 exchange500Env credOnlyState (some "static-tok") 0 rfl rfl

/-- C4: `_ensure_authenticated` is a no-op performing zero network
calls whenever the cached token's expiry is strictly in the future;
otherwise it calls the exchange operation when a cached long-lived
credential exists, and raises `TokenExpiredError` when none does. -/
theorem C4_ensure_authenticated (now : Nat) (env : NetEnv) (st : ClientState)
    (callIdx : Nat) :
    (is_token_valid now st.config = true →
      ensure_authenticated now env st callIdx
        = { error := none, state := st, exchangeCalls := 0 }) ∧
    (is_token_valid now st.config = false → tokenPresent st.static_token = true →
      ensure_authenticated now env st callIdx
        = authenticate now env st st.static_token callIdx ∧
      (ensure_authenticated now env st callIdx).exchangeCalls = 1) ∧
    (is_token_valid now st.config = false → tokenPresent st.static_token = false →
      (ensure_authenticated now env st callIdx).error = some .tokenExpiredError) := by
  refine ⟨?_, ?_, ?_⟩
  · intro hv
    simp [ensure_authenticated, hv]
  · intro hv hc
    have heq : ensure_authenticated now env st callIdx
        = authenticate now env st st.static_token callIdx := by
      simp [ensure_authenticated, hv, hc]
    refine ⟨heq, ?_⟩
    rw [heq]
    unfold authenticate
    rw [if_pos (by rw [resolveToken_of_present _ _ hc]; exact hc)]
    dsimp only
    cases handle_response_error (env.exchangeReplies callIdx).status <;> rfl
  · intro hv hc
    simp [ensure_authenticated, hv, hc]

/-- A client whose cached bearer token expires at time 100. -/
def freshTokenState : ClientState :=
  { config := { defaultConfig with
      token_data := some ⟨"tok", 100, "u1", "alice"⟩ }
    static_token := none }

/-- A client with neither a bearer token nor a cached credential. -/
def noCredState : ClientState :=
  { config := defaultConfig, static_token := none }

/-- Witness for C4: at time 5 a token expiring at 100 short-circuits
with zero exchange calls; with an expired token, a cached credential
triggers exactly one exchange call, and no credential raises
`TokenExpiredError`. -/
theorem C4_ensure_authenticated_witness :
    ensure_authenticated 5 exchange500Env freshTokenState 0
      = { error := none, state := freshTokenState, exchangeCalls := 0 } ∧
    (ensure_authenticated 5 exchange500Env credOnlyState 0).exchangeCalls = 1 ∧
    (ensure_authenticated 5 exchange500Env noCredState 0).error
      = some .tokenExpiredError :=
  ⟨(C4_ensure_authenticated 5 exchange500Env freshTokenState 0).1 rfl,
   ((C4_ensure_authenticated 5 exchange500Env credOnlyState 0).2.1 rfl rfl).2,
   (C4_ensure_authenticated 5 exchange500Env noCredState 0).2.2 rfl rfl⟩

/-- C1: with `require_auth` and a cached long-lived credential, a 401
on the first send triggers exactly one reauthentication and exactly one
resend of the same request (same method and path, Authorization header
refreshed from the reauthentication's exchange reply); a 401 on the
resend raises a terminal `AuthenticationError`, and no execution ever
sends more than twice, for every request. -/
theorem C1_single_retry (now : Nat) (env : NetEnv) (st : ClientState)
    (method path : String)
    (hcred : tokenPresent st.static_token = true)
    (hexch : ∀ i, isSuccess (env.exchangeReplies i).status = true)
    (h401 : env.requestReplies 0 = 401) :
    (request now env st true method path).retryExchangeCalls = 1 ∧
    (request now env st true method path).attempts.length = 2 ∧
    ((request now env st true method path).attempts.map Attempt.method
        = [method, method] ∧
      (request now env st true method path).attempts.map Attempt.path
        = [path, path]) ∧
    (request now env st true method path).attempts.getLast? = some
      { method := method, path := path,
        authHeader := some ("Bearer " ++
          (env.exchangeReplies
            (request now env st true method path).preExchangeCalls).access_token) } ∧
    (env.requestReplies 1 = 401 →
      (request now env st true method path).result
        = Except.error .authenticationError) ∧
    (∀ env2 st2 ra m p, (request now env2 st2 ra m p).attempts.length ≤ 2) := by
  by_cases hv : is_token_valid now st.config = true
  · have he : ensure_authenticated now env st 0
        = { error := none, state := st, exchangeCalls := 0 } := by
      simp [ensure_authenticated, hv]
    have hreq : request now env st true method path
        = requestCore now env st true method path 0 := by
      simp [request, he]
    rw [hreq, requestCore_401_retry now env st method path 0 hcred (hexch 0) h401]
    refine ⟨rfl, rfl, ⟨rfl, rfl⟩, rfl, ?_, fun env2 st2 ra m p =>
      request_attempts_le_two now env2 st2 ra m p⟩
    intro h2
    rw [h2]
    rfl
  · have hv2 : is_token_valid now st.config = false := by
      simpa using hv
    have htok : tokenPresent (resolveToken st.static_token st.static_token) = true := by
      rw [resolveToken_of_present _ _ hcred]
      exact hcred
    have he : ensure_authenticated now env st 0
        = { error := none,
            state :=
              { config :=
                  { st.config with token_data := some {
                      access_token := (env.exchangeReplies 0).access_token,
                      expires_at := now + (env.exchangeReplies 0).expires_in,
                      user_id := (env.exchangeReplies 0).user_id,
                      username := (env.exchangeReplies 0).username } },
                static_token := st.static_token },
            exchangeCalls := 1 } := by
      unfold ensure_authenticated
      rw [if_neg (by simp [hv2]), if_pos hcred,
        authenticate_success now env st st.static_token 0 htok (hexch 0),
        resolveToken_of_present _ _ hcred]
    have hreq : request now env st true method path
        = requestCore now env
            { config :=
                { st.config with token_data := some {
                    access_token := (env.exchangeReplies 0).access_token,
                    expires_at := now + (env.exchangeReplies 0).expires_in,
                    user_id := (env.exchangeReplies 0).user_id,
                    username := (env.exchangeReplies 0).username } },
              static_token := st.static_token }
            true method path 1 := by
      simp [request, he]
    rw [hreq, requestCore_401_retry now env
      { config :=
          { st.config with token_data := some {
              access_token := (env.exchangeReplies 0).access_token,
              expires_at := now + (env.exchangeReplies 0).expires_in,
              user_id := (env.exchangeReplies 0).user_id,
              username := (env.exchangeReplies 0).username } },
        static_token := st.static_token }
      method path 1 hcred (hexch 1) h401]
    refine ⟨rfl, rfl, ⟨rfl, rfl⟩, rfl, ?_, fun env2 st2 ra m p =>
      request_attempts_le_two now env2 st2 ra m p⟩
    intro h2
    rw [h2]
    rfl

/-- A network that answers every send of the main request with 401 and
every exchange with a fresh successful token. -/
def retry401Env : NetEnv :=
  { exchangeReplies := fun i => ⟨200, "fresh" ++ toString i, 60, "u1", "alice"⟩
    requestReplies := fun _ => 401 }

/-- Witness for C1: both sends come back 401; exactly one
reauthentication, exactly two sends, terminal authentication error. -/
theorem C1_single_retry_witness :
    (request 0 retry401Env credOnlyState true "GET" "/chats").retryExchangeCalls = 1 ∧
    (request 0 retry401Env credOnlyState true "GET" "/chats").attempts.length = 2 ∧
    (request 0 retry401Env credOnlyState true "GET" "/chats").result
      = Except.error .authenticationError := by
  have h := C1_single_retry 0 retry401Env credOnlyState "GET" "/chats" rfl
    (fun i => rfl) rfl
  exact ⟨h.1, h.2.1, h.2.2.2.2.1 rfl⟩
